import Mathlib

/-!
Shallow embedding of the process-supervision, checkpoint-resume and
distributed perplexity-aggregation core of
src/src/instructlab/training/get_perplexity.py.

Pure control-flow of the Python functions is translated directly; the
behaviour of external collaborators (the DeepSpeed checkpoint loader, the
child training process, the collective reduction) is abstracted as explicit
input data, so every theorem quantifies over the environments the source
code can actually encounter.
-/

/-! ## Manifest parsing (maybe_resume_training, lines 296-313)

The source reads the checkpoint manifest file named latest and runs the
Python regular expression match with pattern word-chars, underscore,
captured digits.  Python re.match anchors at the start only (a prefix
match), backtracks greedily, and the missing-match case crashes with
AttributeError (groups() on None), which the surrounding try only shields
from FileNotFoundError. -/

/-- Word-character test mirroring the regex character class used at
line 302 of the source (ASCII reading of backslash-w). -/
def isWordChar (c : Char) : Bool := c.isAlphanum || c == '_'

/-- Decimal value of a digit list; mirrors the int() conversion applied to
the captured group at line 303. -/
def digitsVal (ds : List Char) : Nat :=
  ds.foldl (fun a c => 10 * a + (c.toNat - 48)) 0

/-- Attempt to match the literal underscore followed by the greedy captured
digit run at the current position; returns the captured value.  This is the
tail of the regex pattern at line 302. -/
def tryUnderscore : List Char → Option Nat
  | [] => none
  | c :: rest =>
    if c = '_' then
      let ds := rest.takeWhile Char.isDigit
      if ds.isEmpty then none else some (digitsVal ds)
    else none

/-- Backtracking matcher for the remainder of the pattern after at least one
word character has been consumed: greedily extend the word-character run,
falling back to matching the underscore-digits tail - exactly the
backtracking order of the Python regex engine. -/
def goMatch : List Char → Option Nat
  | [] => none
  | c :: cs =>
    if isWordChar c then
      match goMatch cs with
      | some n => some n
      | none => tryUnderscore (c :: cs)
    else none

/-- Prefix match of the full manifest pattern (one-or-more word characters,
underscore, one-or-more captured digits) mirroring re.match at line 302:
the pattern must match at the start of the string but trailing characters
after the match are ignored. -/
def reMatch : List Char → Option Nat
  | [] => none
  | c :: cs => if isWordChar c then goMatch cs else none

/-- Manifest parse of maybe_resume_training, lines 301-303: the captured
group converted by int(); none models the AttributeError raised when the
regex does not match (groups() called on None), which propagates as a fatal
error. -/
def parseManifest (s : String) : Option Nat := reMatch s.toList

/-- Derived step count, line 305 of the source: integer floor division of
samples_seen by effective_batch_size. -/
def lastStep (samplesSeen effectiveBatchSize : Nat) : Nat :=
  samplesSeen / effectiveBatchSize

/-- Errors that can escape the step-recovery block of
maybe_resume_training: the AttributeError from a non-matching manifest
(spec name ManifestParseError) and the ZeroDivisionError from a zero
effective batch size. -/
inductive ResumeErr
  | manifestParse
  | zeroDivision
  deriving DecidableEq

/-- Result of step recovery: either no checkpoint manifest was found
(training starts at the default step) or a recovered last step. -/
inductive ResumeStep
  | noCheckpoint
  | resumed (step : Nat)
  deriving DecidableEq

/-- Default step when nothing is recovered: argparse default of the
last_step flag is 0, and the FileNotFoundError branch (line 312) leaves it
untouched. -/
def ResumeStep.startStep : ResumeStep → Nat
  | .noCheckpoint => 0
  | .resumed n => n

/-- Step-recovery block of maybe_resume_training, lines 296-313: a missing
latest file raises FileNotFoundError which is caught and ignored; a present
file is parsed with the regex (non-match escapes as a fatal error); on a
successful parse last_step is set to floor division of samples_seen by
effective_batch_size (Python would raise ZeroDivisionError for a zero
divisor). -/
def stepRecovery (latest : Option String) (effectiveBatchSize : Nat) :
    Except ResumeErr ResumeStep :=
  match latest with
  | none => .ok .noCheckpoint
  | some s =>
    match parseManifest s with
    | none => .error .manifestParse
    | some n =>
      if effectiveBatchSize = 0 then .error .zeroDivision
      else .ok (.resumed (lastStep n effectiveBatchSize))

/-! ## Checkpoint load with universal fallback (maybe_resume_training, lines 271-293) -/

/-- Outcome of one call to the external DeepSpeed load_checkpoint: success,
a ZeRORuntimeException carrying a message, or any other exception.  The
loader is outside this file so its behaviour is an input. -/
inductive LoadOutcome
  | success
  | zeroExc (msg : String)
  | otherExc
  deriving DecidableEq

/-- Error escaping the load block: a re-raised ZeRORuntimeException or any
other exception (the spec calls both CheckpointLoadError). -/
inductive LoadErr
  | zero (msg : String)
  | other
  deriving DecidableEq

/-- Character-list prefix test. -/
def charsStartWith : List Char → List Char → Bool
  | _, [] => true
  | [], _ :: _ => false
  | c :: cs, d :: ds => c == d && charsStartWith cs ds

/-- Mirror of the Python str.startswith test used at line 275. -/
def msgStartsWith (s p : String) : Bool := charsStartWith s.toList p.toList

/-- Message prefix the source string-matches at line 275 to recognise the
world-size-mismatch condition. -/
def dpMismatchMsg : String := "The checkpoint being loaded used a DP world size of"

/-- Observable trace of the load block: how many universal-checkpoint
conversions ran, how many load attempts were made, the value of the
load_universal_checkpoint flag during the retry and after the block, and
the final outcome. -/
structure ResumeTrace where
  conversions : Nat
  loadAttempts : Nat
  retryWithUniversalFlag : Bool
  flagAfter : Bool
  outcome : Except LoadErr Unit

/-- Load block of maybe_resume_training, lines 271-293: first load attempt;
on a ZeRORuntimeException whose message starts with the world-size-mismatch
text, prepare the universal checkpoint, enable the universal flag, retry
once, and disable the flag only after a successful retry (an exception in
the retry propagates before the reset at line 291); every other failure is
re-raised with no conversion and no retry. -/
def resumeLoadPhase (first second : LoadOutcome) : ResumeTrace :=
  match first with
  | .success =>
    { conversions := 0, loadAttempts := 1, retryWithUniversalFlag := false,
      flagAfter := false, outcome := .ok () }
  | .zeroExc m =>
    if msgStartsWith m dpMismatchMsg then
      match second with
      | .success =>
        { conversions := 1, loadAttempts := 2, retryWithUniversalFlag := true,
          flagAfter := false, outcome := .ok () }
      | .zeroExc m2 =>
        { conversions := 1, loadAttempts := 2, retryWithUniversalFlag := true,
          flagAfter := true, outcome := .error (.zero m2) }
      | .otherExc =>
        { conversions := 1, loadAttempts := 2, retryWithUniversalFlag := true,
          flagAfter := true, outcome := .error .other }
    else
      { conversions := 0, loadAttempts := 1, retryWithUniversalFlag := false,
        flagAfter := false, outcome := .error (.zero m) }
  | .otherExc =>
    { conversions := 0, loadAttempts := 1, retryWithUniversalFlag := false,
      flagAfter := false, outcome := .error .other }

/-! ## Process supervision (run_training, lines 610-648) -/

/-- How the blocking listen call of run_training ended: normal return,
KeyboardInterrupt, or any other exception (lines 618-624). -/
inductive ListenOutcome
  | completed
  | keyboardInterrupt
  | errored
  deriving DecidableEq

/-- State of the child process at the time the finally block runs, plus
whether it would exit within the 60 second graceful wait; this is the
environment the supervisor cannot control. -/
structure ChildState where
  exitCode : Option Int
  respondsWithin60s : Bool
  deriving DecidableEq

/-- Observable supervisor actions in the finally block. -/
inductive SupEvent
  | sigterm
  | waitStart
  | timeoutFired
  | sigkill
  deriving DecidableEq

/-- Result of the finally block: the ordered event trace, whether the
success message was printed (poll() returned 0, line 628), and whether the
captured interrupt or error was re-raised (lines 646-648). -/
structure SupRun where
  events : List SupEvent
  reportedSuccess : Bool
  reraised : Bool
  deriving DecidableEq

/-- Finally block of run_training, lines 625-648: if launch never produced
a process the block returns immediately (swallowing any captured error);
otherwise terminate and a 60 second wait are invoked unconditionally, the
wait raises TimeoutExpired exactly when the child is still running and
ignores the graceful signal, in which case kill is invoked; finally a
captured interrupt or error is re-raised. -/
def runTrainingShutdown (launched : Bool) (listenOut : ListenOutcome)
    (child : ChildState) : SupRun :=
  if launched then
    { events := [SupEvent.sigterm, SupEvent.waitStart] ++
        (if child.exitCode == none && !child.respondsWithin60s then
          [SupEvent.timeoutFired, SupEvent.sigkill]
        else []),
      reportedSuccess := child.exitCode == some 0,
      reraised := !(listenOut == ListenOutcome.completed) }
  else
    { events := [], reportedSuccess := false, reraised := false }

/-! ## Distributed perplexity aggregation (get_perplexity, lines 318-389) -/

/-- Metric value: an exact number, or the exponential of a number (the
math.exp applied to the average log perplexity at line 376); keeping the
exponential symbolic keeps the embedding executable. -/
inductive MVal
  | q (x : ℚ)
  | perpOf (avg : ℚ)
  deriving DecidableEq

/-- One structured record handed to the metric logger via log_sync. -/
abbrev MetricRecord := List (String × MVal)

/-- Per-rank contributions of one evaluation batch: the list of per-rank
log-perplexities, loss-counted token counts and sample counts that the sum
reduction at lines 346-355 combines. -/
structure EvalBatch where
  logPerp : List ℚ
  tokens : List Nat
  samples : List Nat
  deriving DecidableEq

/-- Running state of the evaluation loop: the three running totals of
lines 323-325 plus the records emitted so far. -/
structure AggState where
  totLP : ℚ
  totTok : Nat
  totSamp : Nat
  recs : List MetricRecord
  deriving DecidableEq

/-- Initial state of the evaluation loop (lines 323-325). -/
def gpInit : AggState := { totLP := 0, totTok := 0, totSamp := 0, recs := [] }

/-- Per-batch record logged by local rank 0 at lines 363-372. -/
def perBatchRecord (lp : ℚ) (nt ns : Nat) (tLP : ℚ) (tTok tS : Nat) :
    MetricRecord :=
  [("log_perplexity", MVal.q lp),
   ("num_loss_counted_tokens", MVal.q (nt : ℚ)),
   ("total_log_perplexity", MVal.q tLP),
   ("total_num_tokens", MVal.q (tTok : ℚ)),
   ("num_samples", MVal.q (ns : ℚ)),
   ("total_samples", MVal.q (tS : ℚ))]

/-- Final record logged by local rank 0 at lines 379-387. -/
def finalRecord (avg tLP : ℚ) (tTok tS : Nat) : MetricRecord :=
  [("average_log_perp", MVal.q avg),
   ("avg_perplexity", MVal.perpOf avg),
   ("total_log_perplexity", MVal.q tLP),
   ("total_num_tokens", MVal.q (tTok : ℚ)),
   ("total_samples", MVal.q (tS : ℚ))]

/-- Record that carries no perplexity metric: none of its keys is the
avg_perplexity key that only the final record of lines 379-387 contains. -/
def noPerpRecord (r : MetricRecord) : Prop :=
  ∀ p ∈ r, ¬ p.1 = "avg_perplexity"

/-- One iteration of the evaluation loop, lines 332-372: the sum reduction
yields the across-rank sums, the running totals accumulate them, and local
rank 0 appends a per-batch record. -/
def gpStep (localRank : Nat) (st : AggState) (b : EvalBatch) : AggState :=
  let lp := b.logPerp.sum
  let nt := b.tokens.sum
  let ns := b.samples.sum
  let tLP := st.totLP + lp
  let tTok := st.totTok + nt
  let tS := st.totSamp + ns
  { totLP := tLP, totTok := tTok, totSamp := tS,
    recs :=
      if localRank = 0 then st.recs ++ [perBatchRecord lp nt ns tLP tTok tS]
      else st.recs }

/-- Fatal error of the final division, line 375: total_num_tokens is the
integer 0, so Python raises ZeroDivisionError - the condition the spec
names AggregationDivideByZero - before the final record is logged. -/
inductive AggErr
  | AggregationDivideByZero
  deriving DecidableEq

/-- Whole evaluation pass of get_perplexity, lines 318-389: fold the batch
loop, then either fail on a zero token total (line 375 divides by the
integer total_num_tokens) or compute the average log perplexity, log the
final record on local rank 0, and return the perplexity (math.exp of the
average, kept symbolic as MVal.perpOf). -/
def gpRun (localRank : Nat) (batches : List EvalBatch) :
    List MetricRecord × Except AggErr MVal :=
  let st := batches.foldl (gpStep localRank) gpInit
  if st.totTok = 0 then (st.recs, .error .AggregationDivideByZero)
  else
    let avg := st.totLP / (st.totTok : ℚ)
    ((if localRank = 0 then st.recs ++ [finalRecord avg st.totLP st.totTok st.totSamp]
      else st.recs),
     .ok (.perpOf avg))

/-! ## Rank identities

The rank processes read RANK and LOCAL_RANK from the environment (lines
321, 399, 401); run_training launches them through torchrun with nnodes,
node_rank and nproc_per_node (lines 516-520), which assigns the global
RANK as node_rank times nproc_per_node plus LOCAL_RANK. -/

/-- Identity of one rank process as torchrun configures it. -/
structure RankEnv where
  nprocPerNode : Nat
  nodeRank : Nat
  localRank : Nat
  deriving DecidableEq

/-- Valid torchrun assignment: the local rank is below the per-node process
count. -/
def RankEnv.valid (e : RankEnv) : Prop := e.localRank < e.nprocPerNode

/-- Global rank (the RANK environment variable) of the process. -/
def RankEnv.rank (e : RankEnv) : Nat :=
  e.nodeRank * e.nprocPerNode + e.localRank

/-! ## Concrete inputs used by counterexamples and witnesses -/

/-- Manifest string with a word-character tag, an underscore, digits and a
trailing non-digit character. -/
def mStrBad : String := "abc_12x"

/-- Manifest string of the valid spec form tag underscore digits whose tag
contains a hyphen (a non word character). -/
def mStrHyphen : String := "a-b_5"

/-- Manifest string recording 12000 samples seen. -/
def mStr12000 : String := "ckpt_12000"

/-- Well-formed manifest example. -/
def mStrOk : String := "epoch3_4000"

/-- ZeRORuntimeException message carrying the world-size-mismatch text. -/
def wsMsgEx : String := "The checkpoint being loaded used a DP world size of 4"

/-- ZeRORuntimeException message that is not the world-size mismatch. -/
def otherMsgEx : String := "checkpoint file is corrupt"

/-- Evaluation batch in which two ranks report log-perplexities 10 and 20,
token counts 100 and 300, and one sample each. -/
def b0 : EvalBatch := { logPerp := [10, 20], tokens := [100, 300], samples := [1, 1] }

/-- Evaluation batch whose ranks all report zero loss-counted tokens. -/
def bZero : EvalBatch := { logPerp := [0, 0], tokens := [0, 0], samples := [1, 1] }

/-- Rank process on the second node of a two-node eight-process-per-node
run: LOCAL_RANK 0 but global RANK 8. -/
def envNode1 : RankEnv := { nprocPerNode := 8, nodeRank := 1, localRank := 0 }

/-- Rank process 0 of a single-node run. -/
def envNode0 : RankEnv := { nprocPerNode := 8, nodeRank := 0, localRank := 0 }

/-- Child process that already exited with status 0. -/
def childExit0 : ChildState := { exitCode := some 0, respondsWithin60s := true }

/-- Child process still running that ignores the graceful signal past the
60 second budget. -/
def childHung : ChildState := { exitCode := none, respondsWithin60s := false }

/-! ## Helper lemmas about the manifest matcher -/

/-- A list of digits is left unchanged by the greedy digit take. -/
theorem takeWhile_digits_self (l : List Char) (h : ∀ c ∈ l, c.isDigit = true) :
    l.takeWhile Char.isDigit = l := by
  induction l with
  | nil => rfl
  | cons c cs ih =>
    have hc := h c (List.mem_cons_self _ _)
    have hcs := ih (fun d hd => h d (List.mem_cons_of_mem _ hd))
    simp [List.takeWhile_cons, hc, hcs]

/-- Digit characters are not the underscore. -/
theorem digits_no_underscore (ds : List Char) (h : ∀ c ∈ ds, c.isDigit = true) :
    ∀ c ∈ ds, ¬ c = '_' := by
  intro c hc heq
  have hd := h c hc
  rw [heq] at hd
  exact absurd hd (by decide)

/-- The underscore-digits tail cannot match inside a list without an
underscore. -/
theorem tryUnderscore_no_underscore (cs : List Char)
    (h : ∀ c ∈ cs, ¬ c = '_') : tryUnderscore cs = none := by
  cases cs with
  | nil => rfl
  | cons c rest =>
    have hc := h c (List.mem_cons_self _ _)
    simp [tryUnderscore, hc]

/-- The backtracking matcher fails on any list without an underscore. -/
theorem goMatch_no_underscore (cs : List Char)
    (h : ∀ c ∈ cs, ¬ c = '_') : goMatch cs = none := by
  induction cs with
  | nil => rfl
  | cons c rest ih =>
    have hrest : ∀ d ∈ rest, ¬ d = '_' := fun d hd => h d (List.mem_cons_of_mem _ hd)
    by_cases hw : isWordChar c = true
    · simp [goMatch, hw, ih hrest, tryUnderscore_no_underscore _ h]
    · simp [goMatch, hw]

/-- On an underscore followed by pure digits the matcher captures the whole
digit run. -/
theorem goMatch_underscore_digits (ds : List Char) (hne : ds ≠ [])
    (h : ∀ c ∈ ds, c.isDigit = true) :
    goMatch ('_' :: ds) = some (digitsVal ds) := by
  have h1 : goMatch ds = none := goMatch_no_underscore ds (digits_no_underscore ds h)
  have h2 : ds.takeWhile Char.isDigit = ds := takeWhile_digits_self ds h
  have h3 : ds.isEmpty = false := by
    cases ds with
    | nil => exact absurd rfl hne
    | cons d rest => rfl
  simp [goMatch, isWordChar, h1, tryUnderscore, h2, h3]

/-- Word characters before the separator do not disturb the capture. -/
theorem goMatch_word_chain (ws ds : List Char)
    (hw : ∀ c ∈ ws, isWordChar c = true) (hne : ds ≠ [])
    (hd : ∀ c ∈ ds, c.isDigit = true) :
    goMatch (ws ++ '_' :: ds) = some (digitsVal ds) := by
  induction ws with
  | nil => simpa using goMatch_underscore_digits ds hne hd
  | cons c cs ih =>
    have hc := hw c (List.mem_cons_self _ _)
    have hcs : ∀ d ∈ cs, isWordChar d = true :=
      fun d hdm => hw d (List.mem_cons_of_mem _ hdm)
    simp [goMatch, hc, ih hcs]

/-- Full-pattern capture on a well-formed manifest list with a word-character
tag. -/
theorem reMatch_valid (t : Char) (ts ds : List Char)
    (ht : isWordChar t = true) (hts : ∀ c ∈ ts, isWordChar c = true)
    (hne : ds ≠ []) (hd : ∀ c ∈ ds, c.isDigit = true) :
    reMatch ((t :: ts) ++ '_' :: ds) = some (digitsVal ds) := by
  simp [reMatch, ht, goMatch_word_chain ts ds hts hne hd]

/-- The full pattern fails on any list without an underscore, in particular
on the empty list. -/
theorem reMatch_no_underscore (cs : List Char)
    (h : ∀ c ∈ cs, ¬ c = '_') : reMatch cs = none := by
  cases cs with
  | nil => rfl
  | cons c rest =>
    have hrest : ∀ d ∈ rest, ¬ d = '_' := fun d hd => h d (List.mem_cons_of_mem _ hd)
    by_cases hw : isWordChar c = true
    · simp [reMatch, hw, goMatch_no_underscore rest hrest]
    · simp [reMatch, hw]

/-! ## Claim C4 -/

/-- Claim C4 counterexample: the claim states that every malformed manifest
(non-numeric suffix) fails with a fatal parse error and that every valid
tag-underscore-number manifest parses to its number.  The source regex is a
prefix match over word characters, so the malformed string abc_12x parses
silently to 12, and the valid manifest a-b_5 (tag a-b, number 5) fails to
match because its tag holds a hyphen. -/
theorem C4_manifest_counterexample :
    parseManifest mStrBad = some 12 ∧ parseManifest mStrHyphen = none := by
  decide

/-- Claim C4 (amended): manifests of the form tag-underscore-digits whose
tag is a nonempty run of word characters parse to exactly the digit value;
a manifest with no underscore at all (the empty string included) fails
fatally and never defaults to step 0; however, trailing characters after a
matching prefix are silently ignored (abc_12x parses to 12) and a valid
manifest whose tag holds a non word character fails fatally (a-b_5). -/
theorem C4_manifest_amended :
    (∀ (t : Char) (ts ds : List Char), isWordChar t = true →
        (∀ c ∈ ts, isWordChar c = true) → ds ≠ [] →
        (∀ c ∈ ds, c.isDigit = true) →
        parseManifest (String.mk ((t :: ts) ++ '_' :: ds)) = some (digitsVal ds)) ∧
    (∀ s : String, (∀ c ∈ s.toList, ¬ c = '_') → parseManifest s = none) ∧
    parseManifest mStrBad = some 12 ∧
    parseManifest mStrHyphen = none := by
  refine ⟨?_, ?_, by decide, by decide⟩
  · intro t ts ds ht hts hne hd
    have h := reMatch_valid t ts ds ht hts hne hd
    simpa [parseManifest] using h
  · intro s h
    simpa [parseManifest] using reMatch_no_underscore s.toList h

/-- Claim C4 witness: the amended theorem applied to the concrete manifest
epoch3_4000, recovering 4000. -/
theorem C4_manifest_amended_witness :
    parseManifest (String.mk (('e' :: ['p', 'o', 'c', 'h', '3']) ++ '_' :: ['4', '0', '0', '0']))
      = some (digitsVal ['4', '0', '0', '0']) :=
  C4_manifest_amended.1 'e' ['p', 'o', 'c', 'h', '3'] ['4', '0', '0', '0']
    (by decide) (by decide) (by decide) (by decide)

/-! ## Claim C8 -/

/-- Claim C8: when no manifest file exists (the FileNotFoundError branch of
maybe_resume_training), step recovery is a no-op: no error is raised, the
state is NoCheckpoint and training starts from step 0, for every effective
batch size. -/
theorem C8_no_manifest_noop :
    ∀ effectiveBatchSize : Nat,
      stepRecovery none effectiveBatchSize = .ok .noCheckpoint ∧
      ResumeStep.startStep .noCheckpoint = 0 :=
  fun _ => ⟨rfl, rfl⟩

/-! ## Claim C9 -/

/-- Claim C9: whenever the manifest parses to samples_seen = n and the
effective batch size is positive, the recovered step is the integer floor
division of n by the effective batch size; in particular samples_seen of
12000 with effective batch size 400 recovers step 30. -/
theorem C9_last_step_formula :
    (∀ (s : String) (n ebs : Nat), parseManifest s = some n → 0 < ebs →
        stepRecovery (some s) ebs = .ok (.resumed (n / ebs))) ∧
    stepRecovery (some mStr12000) 400 = .ok (.resumed 30) := by
  constructor
  · intro s n ebs hp hpos
    simp [stepRecovery, hp, lastStep, Nat.pos_iff_ne_zero.mp hpos]
  · rfl

/-- Claim C9 witness: the general formula instantiated at the manifest
ckpt_12000 with effective batch size 400. -/
theorem C9_last_step_formula_witness :
    stepRecovery (some mStr12000) 400 = .ok (.resumed (12000 / 400)) :=
  C9_last_step_formula.1 mStr12000 12000 400 (by decide) (by decide)

/-! ## Claim C10 -/

/-- Claim C10: across two resumes with the same positive effective batch
size, a samples_seen that does not decrease yields a recovered last step
that does not decrease (floor division is monotone). -/
theorem C10_last_step_monotone :
    ∀ (m1 m2 : String) (n1 n2 ebs : Nat),
      parseManifest m1 = some n1 → parseManifest m2 = some n2 →
      n1 ≤ n2 → 0 < ebs →
      stepRecovery (some m1) ebs = .ok (.resumed (lastStep n1 ebs)) ∧
      stepRecovery (some m2) ebs = .ok (.resumed (lastStep n2 ebs)) ∧
      lastStep n1 ebs ≤ lastStep n2 ebs := by
  intro m1 m2 n1 n2 ebs h1 h2 hle hpos
  refine ⟨?_, ?_, Nat.div_le_div_right hle⟩ <;>
    simp [stepRecovery, h1, h2, Nat.pos_iff_ne_zero.mp hpos]

/-- Claim C10 witness: resuming from manifest epoch3_4000 and then from
ckpt_12000 with effective batch size 400 never decreases the step. -/
theorem C10_last_step_monotone_witness :
    lastStep 4000 400 ≤ lastStep 12000 400 :=
  (C10_last_step_monotone mStrOk mStr12000 4000 12000 400
    (by decide) (by decide) (by decide) (by decide)).2.2

/-! ## Helper lemmas about the evaluation loop -/

/-- Per-batch records never carry the avg_perplexity key. -/
theorem perBatchRecord_noPerp (lp : ℚ) (nt ns : Nat) (tLP : ℚ) (tTok tS : Nat) :
    noPerpRecord (perBatchRecord lp nt ns tLP tTok tS) := by
  intro p hp
  simp [perBatchRecord] at hp
  rcases hp with h | h | h | h | h | h <;> subst h <;> simp

/-- The batch loop preserves the absence of the avg_perplexity key in every
emitted record. -/
theorem gpFold_noPerp (localRank : Nat) (batches : List EvalBatch)
    (st : AggState) (h : ∀ r ∈ st.recs, noPerpRecord r) :
    ∀ r ∈ (batches.foldl (gpStep localRank) st).recs, noPerpRecord r := by
  induction batches generalizing st with
  | nil => simpa using h
  | cons b bs ih =>
    rw [List.foldl_cons]
    refine ih (gpStep localRank st b) ?_
    intro r hr
    by_cases hlr : localRank = 0
    · simp [gpStep, hlr] at hr
      rcases hr with hr | hr
      · exact h r hr
      · subst hr
        exact perBatchRecord_noPerp _ _ _ _ _ _
    · simp [gpStep, hlr] at hr
      exact h r hr

/-- A non-reporting local rank appends no record in the batch loop. -/
theorem gpFold_recs_nonzero_rank (lr : Nat) (hlr : ¬ lr = 0)
    (bs : List EvalBatch) (st : AggState) :
    (bs.foldl (gpStep lr) st).recs = st.recs := by
  induction bs generalizing st with
  | nil => rfl
  | cons b rest ih =>
    rw [List.foldl_cons, ih]
    simp [gpStep, hlr]

/-- The batch loop only appends records, never removes them. -/
theorem gpFold_recs_mono (lr : Nat) (bs : List EvalBatch) (st : AggState) :
    ∃ ext, (bs.foldl (gpStep lr) st).recs = st.recs ++ ext := by
  induction bs generalizing st with
  | nil => exact ⟨[], by simp⟩
  | cons b rest ih =>
    obtain ⟨ext2, h2⟩ := ih (gpStep lr st b)
    by_cases hlr : lr = 0
    · refine ⟨[perBatchRecord b.logPerp.sum b.tokens.sum b.samples.sum
        (st.totLP + b.logPerp.sum) (st.totTok + b.tokens.sum)
        (st.totSamp + b.samples.sum)] ++ ext2, ?_⟩
      rw [List.foldl_cons, h2]
      simp [gpStep, hlr]
    · refine ⟨ext2, ?_⟩
      rw [List.foldl_cons, h2]
      simp [gpStep, hlr]

/-! ## Claim C3 -/

/-- Claim C3: on every rank, if the loss-counted token total is zero after
all batches, the final division of get_perplexity fails fatally (the
ZeroDivisionError of line 375, the condition the spec names
AggregationDivideByZero) and no record carrying a perplexity value is ever
emitted - in particular no NaN or infinity is silently logged. -/
theorem C3_divide_by_zero_fatal :
    ∀ (localRank : Nat) (batches : List EvalBatch),
      (batches.foldl (gpStep localRank) gpInit).totTok = 0 →
      (gpRun localRank batches).2 = .error .AggregationDivideByZero ∧
      ∀ r ∈ (gpRun localRank batches).1, noPerpRecord r := by
  intro lr bs h
  constructor
  · simp [gpRun, h]
  · intro r hr
    simp [gpRun, h] at hr
    exact gpFold_noPerp lr bs gpInit (by simp [gpInit]) r hr

/-- Claim C3 witness: a run over one batch in which both ranks report zero
loss-counted tokens aborts with the divide-by-zero error. -/
theorem C3_divide_by_zero_fatal_witness :
    (gpRun 0 [bZero]).2 = Except.error AggErr.AggregationDivideByZero :=
  (C3_divide_by_zero_fatal 0 [bZero] (by decide)).1

/-! ## Claim C5 -/

/-- Claim C5 counterexample: the claim states that only the globally
designated reporting rank (global rank 0) ever writes a metric record, but
the source gates every log_sync on LOCAL_RANK, so on a two-node run with
eight processes per node the process with LOCAL_RANK 0 on the second node
(global RANK 8) also emits records. -/
theorem C5_reporting_rank_counterexample :
    ¬ (∀ (e : RankEnv) (batches : List EvalBatch), e.valid →
        (gpRun e.localRank batches).1 ≠ [] → e.rank = 0) := by
  intro h
  have hne : (gpRun envNode1.localRank [b0]).1 ≠ [] := by
    simp [gpRun, gpStep, gpInit, b0, envNode1]
  have hr := h envNode1 [b0] (by simp [RankEnv.valid, envNode1]) hne
  exact absurd hr (by simp [RankEnv.rank, envNode1])

/-- Claim C5 (amended): a metric record is emitted exactly by the processes
whose LOCAL_RANK is 0 - one per node; on a single-node run that process is
precisely global rank 0, so the original claim holds there. -/
theorem C5_reporting_rank_amended :
    (∀ (e : RankEnv) (batches : List EvalBatch),
        (gpRun e.localRank batches).1 ≠ [] → e.localRank = 0) ∧
    (∀ e : RankEnv, e.valid → e.localRank = 0 → e.nodeRank = 0 → e.rank = 0) ∧
    (∀ (e : RankEnv) (batches : List EvalBatch), e.localRank = 0 →
        batches ≠ [] → (gpRun e.localRank batches).1 ≠ []) := by
  refine ⟨?_, ?_, ?_⟩
  · intro e bs h
    by_contra hlr
    apply h
    have hrecs := gpFold_recs_nonzero_rank e.localRank hlr bs gpInit
    have hnil : gpInit.recs = [] := rfl
    by_cases h0 : (bs.foldl (gpStep e.localRank) gpInit).totTok = 0
    · simp [gpRun, h0, hrecs, hnil]
    · simp [gpRun, h0, hrecs, hnil, hlr]
  · intro e _ h1 h2
    simp [RankEnv.rank, h1, h2]
  · intro e bs h0 hbs
    rw [h0]
    obtain ⟨b, rest, rfl⟩ : ∃ x xs, bs = x :: xs := by
      cases bs with
      | nil => exact absurd rfl hbs
      | cons x xs => exact ⟨x, xs, rfl⟩
    have hstep : (gpStep 0 gpInit b).recs ≠ [] := by
      simp [gpStep, gpInit]
    obtain ⟨ext, hext⟩ := gpFold_recs_mono 0 rest (gpStep 0 gpInit b)
    have hfold : (List.foldl (gpStep 0) (gpStep 0 gpInit b) rest).recs ≠ [] := by
      rw [hext]
      intro hcon
      exact hstep (List.append_eq_nil.mp hcon).1
    by_cases ht : (List.foldl (gpStep 0) (gpStep 0 gpInit b) rest).totTok = 0
    · simp only [gpRun, List.foldl_cons, ht, if_true]
      exact hfold
    · simp [gpRun, List.foldl_cons, ht]

/-- Claim C5 witness: on a single-node run the emitting process (LOCAL_RANK
0) is global rank 0 and it does emit records. -/
theorem C5_reporting_rank_amended_witness :
    envNode0.rank = 0 ∧ (gpRun envNode0.localRank [b0]).1 ≠ [] :=
  ⟨C5_reporting_rank_amended.2.1 envNode0 (by simp [RankEnv.valid, envNode0]) rfl rfl,
   C5_reporting_rank_amended.2.2 envNode0 [b0] rfl (by simp)⟩

/-! ## Claim C6 -/

/-- Claim C6: with a nonzero token total, get_perplexity returns the
exponential of the average log perplexity (total log perplexity divided by
total token count, the value MVal.perpOf denotes); for per-rank
log-perplexities 10 and 20 with token counts 100 and 300 the totals are 30
and 400, the average is 3/40 = 0.075, and the real exponential of 3/40 is
within 1/1000 of 1.0779. -/
theorem C6_perplexity_formula :
    (∀ (localRank : Nat) (batches : List EvalBatch),
        ¬ (batches.foldl (gpStep localRank) gpInit).totTok = 0 →
        (gpRun localRank batches).2 =
          .ok (.perpOf ((batches.foldl (gpStep localRank) gpInit).totLP /
            ((batches.foldl (gpStep localRank) gpInit).totTok : ℚ)))) ∧
    ([b0].foldl (gpStep 0) gpInit).totLP = 30 ∧
    ([b0].foldl (gpStep 0) gpInit).totTok = 400 ∧
    (gpRun 0 [b0]).2 = .ok (.perpOf (3/40)) ∧
    ((3 : ℚ)/40 = 75/1000) ∧
    |Real.exp ((3 : ℝ)/40) - 10779/10000| < 1/1000 := by
  refine ⟨?_, ?_, by decide, ?_, by norm_num, ?_⟩
  · intro lr bs h
    simp [gpRun, h]
  · simp [gpStep, gpInit, b0]
    norm_num
  · simp [gpRun, gpStep, gpInit, b0]
    norm_num
  · have hb := Real.exp_bound (x := (3 : ℝ)/40)
      (abs_le.mpr ⟨by norm_num, by norm_num⟩) (n := 3) (by norm_num)
    have hsum : (∑ m ∈ Finset.range 3, ((3 : ℝ)/40) ^ m / (m.factorial : ℝ))
        = 3449/3200 := by
      simp [Finset.sum_range_succ, Nat.factorial]
      norm_num
    have habs : |(3 : ℝ)/40| = 3/40 := abs_of_nonneg (by norm_num)
    rw [hsum, habs] at hb
    rw [abs_le] at hb
    norm_num [Nat.factorial] at hb
    rw [abs_lt]
    constructor <;> linarith [hb.1, hb.2]

/-- Claim C6 witness: the general formula instantiated at the two-rank
single-batch example. -/
theorem C6_perplexity_formula_witness :
    (gpRun 0 [b0]).2 =
      .ok (.perpOf (([b0].foldl (gpStep 0) gpInit).totLP /
        (([b0].foldl (gpStep 0) gpInit).totTok : ℚ))) :=
  C6_perplexity_formula.1 0 [b0] (by decide)

/-! ## Claim C1 -/

/-- Claim C1 counterexample: the claim states that when the child already
exited with status 0 before termination was requested, neither terminate
nor kill is invoked.  The finally block of run_training invokes terminate
(and a 60 second wait) unconditionally after the success check, so the
graceful-termination call is present in the trace even in this scenario. -/
theorem C1_shutdown_counterexample :
    SupEvent.sigterm ∈
      (runTrainingShutdown true ListenOutcome.completed childExit0).events ∧
    (runTrainingShutdown true ListenOutcome.completed childExit0).reportedSuccess
      = true := by
  decide

/-- Claim C1 (amended): when the child already exited with status 0 the
shutdown path still invokes terminate and one wait, but the wait does not
time out so kill is never invoked, the success message is reported, and if
listen returned normally nothing is re-raised - the run reports success. -/
theorem C1_shutdown_amended :
    ∀ (lo : ListenOutcome) (c : ChildState), c.exitCode = some 0 →
      (runTrainingShutdown true lo c).events
        = [SupEvent.sigterm, SupEvent.waitStart] ∧
      SupEvent.sigkill ∉ (runTrainingShutdown true lo c).events ∧
      SupEvent.timeoutFired ∉ (runTrainingShutdown true lo c).events ∧
      (runTrainingShutdown true lo c).reportedSuccess = true ∧
      (lo = ListenOutcome.completed →
        (runTrainingShutdown true lo c).reraised = false) := by
  intro lo c hc
  obtain ⟨ec, rs⟩ := c
  simp only at hc
  subst hc
  cases lo <;> cases rs <;> decide

/-- Claim C1 witness: the amended statement at the concrete run in which
listen completed and the child exited with 0. -/
theorem C1_shutdown_amended_witness :
    (runTrainingShutdown true ListenOutcome.completed childExit0).events
      = [SupEvent.sigterm, SupEvent.waitStart] ∧
    (runTrainingShutdown true ListenOutcome.completed childExit0).reraised
      = false := by
  have h := C1_shutdown_amended ListenOutcome.completed childExit0 rfl
  exact ⟨h.1, h.2.2.2.2 rfl⟩

/-! ## Claim C7 -/

/-- Claim C7: when listen ended with an interrupt or error and the child is
still running and ignores the graceful signal past the 60 second budget,
the supervisor raises exactly one wait timeout, then invokes kill exactly
once (after the timeout, as the trace order shows), and re-raises the
originating interrupt or error so the caller observes the failure. -/
theorem C7_kill_escalation :
    ∀ (lo : ListenOutcome) (c : ChildState),
      ¬ lo = ListenOutcome.completed → c.exitCode = none →
      c.respondsWithin60s = false →
      (runTrainingShutdown true lo c).events
        = [SupEvent.sigterm, SupEvent.waitStart,
           SupEvent.timeoutFired, SupEvent.sigkill] ∧
      (runTrainingShutdown true lo c).events.count SupEvent.sigkill = 1 ∧
      (runTrainingShutdown true lo c).events.count SupEvent.timeoutFired = 1 ∧
      (runTrainingShutdown true lo c).reraised = true := by
  intro lo c hlo hec hrs
  obtain ⟨ec, rs⟩ := c
  simp only at hec hrs
  subst hec
  subst hrs
  cases lo with
  | completed => exact absurd rfl hlo
  | keyboardInterrupt => decide
  | errored => decide

/-- Claim C7 witness: the escalation at the concrete run interrupted by the
user with a hung child. -/
theorem C7_kill_escalation_witness :
    (runTrainingShutdown true ListenOutcome.keyboardInterrupt childHung).events
      = [SupEvent.sigterm, SupEvent.waitStart,
         SupEvent.timeoutFired, SupEvent.sigkill] ∧
    (runTrainingShutdown true ListenOutcome.keyboardInterrupt childHung).reraised
      = true := by
  have h := C7_kill_escalation ListenOutcome.keyboardInterrupt childHung
    (by decide) rfl rfl
  exact ⟨h.1, h.2.2.2⟩

/-! ## Claim C2 -/

/-- Claim C2: a first load failing as a ZeRORuntimeException whose message
starts with the world-size-mismatch text triggers exactly one universal
checkpoint conversion and exactly one retry (two load attempts in total)
with the universal flag enabled during the retry and reset afterwards when
the retry succeeds; a ZeRORuntimeException with any other message, or any
other exception, is re-raised with zero conversions and zero retries. -/
theorem C2_universal_fallback :
    (∀ (m : String) (second : LoadOutcome),
        msgStartsWith m dpMismatchMsg = true →
        (resumeLoadPhase (.zeroExc m) second).conversions = 1 ∧
        (resumeLoadPhase (.zeroExc m) second).loadAttempts = 2 ∧
        (resumeLoadPhase (.zeroExc m) second).retryWithUniversalFlag = true ∧
        (second = .success →
          (resumeLoadPhase (.zeroExc m) second).flagAfter = false ∧
          (resumeLoadPhase (.zeroExc m) second).outcome = .ok ())) ∧
    (∀ (m : String) (second : LoadOutcome),
        msgStartsWith m dpMismatchMsg = false →
        (resumeLoadPhase (.zeroExc m) second).conversions = 0 ∧
        (resumeLoadPhase (.zeroExc m) second).loadAttempts = 1 ∧
        (resumeLoadPhase (.zeroExc m) second).outcome = .error (.zero m)) ∧
    (∀ second : LoadOutcome,
        (resumeLoadPhase .otherExc second).conversions = 0 ∧
        (resumeLoadPhase .otherExc second).loadAttempts = 1 ∧
        (resumeLoadPhase .otherExc second).outcome = .error .other) := by
  refine ⟨?_, ?_, ?_⟩
  · intro m second hm
    cases second <;> simp [resumeLoadPhase, hm]
  · intro m second hm
    simp [resumeLoadPhase, hm]
  · intro second
    simp [resumeLoadPhase]

/-- Claim C2 witness: a concrete world-size-mismatch message yields one
conversion, two attempts and a reset flag; a concrete unrelated message
yields zero conversions and a re-raised error. -/
theorem C2_universal_fallback_witness :
    (resumeLoadPhase (.zeroExc wsMsgEx) .success).conversions = 1 ∧
    (resumeLoadPhase (.zeroExc wsMsgEx) .success).loadAttempts = 2 ∧
    (resumeLoadPhase (.zeroExc wsMsgEx) .success).flagAfter = false ∧
    (resumeLoadPhase (.zeroExc otherMsgEx) .success).conversions = 0 ∧
    (resumeLoadPhase (.zeroExc otherMsgEx) .success).outcome
      = .error (.zero otherMsgEx) := by
  have h1 := C2_universal_fallback.1 wsMsgEx .success (by decide)
  have h2 := C2_universal_fallback.2.1 otherMsgEx .success (by decide)
  exact ⟨h1.1, h1.2.1, (h1.2.2.2 rfl).1, h2.1, h2.2.2⟩
